import Mathlib

/-!
Shallow embedding of the shader-compilation caching component of
DX11Rendering2DDemo: class `CShader` (src/CShader.cpp together with the class
definition and its member initializers from the header), plus the exception
type `CDXShaderException` and the relevant behavior of `CHResultException`
(src/HResultException.cpp).

Modelling conventions:
- `std::string` is `String`; `HRESULT` is `Int` (negative means FAILED);
  `UINT` flags are `Nat`; `ID3DBlob` bytecode artifacts are abstract handles
  (`Nat`), a `ComPtr` holding one is `Option Nat` with `none` for null;
  `ID3DInclude*` is `Option Nat` with `none` for nullptr.
- The external `D3DCompile` call is modelled by an oracle value of type
  `CompileResult` supplied to each `Compile` call: either the compiler
  succeeds and produces a bytecode blob, or it fails with an HRESULT, an
  optional diagnostic-text blob, and the value that the subsequent
  `::GetErrorInfo` call (HResultException.cpp line 49) returns.
- `CShader.Compile` returns the C++ function's outcome (`Except` models
  throw vs. return), the post-call state, and the list of arguments of the
  `D3DCompile` invocations actually performed (empty or a singleton), so
  that call counting and argument passing are observable.
-/

/-- A user-facing preprocessor macro entry, struct `ShaderMacro`
(main.cpp lines 620-624 of the embedded header text). -/
structure ShaderMacro where
  m_name : String
  m_definition : String
deriving DecidableEq, Repr

/-- One native `D3D_SHADER_MACRO` slot: two nullable C-string pointers.
`none` models a NULL pointer. -/
structure D3DShaderMacro where
  name : Option String
  definition : Option String
deriving DecidableEq, Repr

/-- Result of one invocation of the external compiler `D3DCompile`.
`ok blob` models `S_OK` with the produced bytecode; `fail hr errorMessage
getErrorInfoResult` models a FAILED HRESULT `hr`, the optional diagnostic
text written to the error blob, and the value returned by the
`::GetErrorInfo` call performed while constructing the exception. -/
inductive CompileResult where
  | ok (blob : Nat)
  | fail (hr : Int) (errorMessage : Option String) (getErrorInfoResult : Int)
deriving DecidableEq, Repr

/-- Whether a compiler invocation succeeded. -/
def CompileResult.isOk : CompileResult → Bool
  | .ok _ => true
  | .fail _ _ _ => false

/-- The include-handler argument passed to `D3DCompile`: the configured
handler, or `D3D_COMPILE_STANDARD_FILE_INCLUDE` when `m_p_include` is null
(CShader.cpp line 44). -/
inductive IncludeArg where
  | standardFileInclude
  | custom (handle : Nat)
deriving DecidableEq, Repr

/-- The argument tuple of one `D3DCompile` invocation
(CShader.cpp lines 39-50). -/
structure D3DCompileArgs where
  pSrcData : String
  srcDataSize : Nat
  pSourceName : String
  /-- `none` models passing NULL for the macro array
  (`m_macros.empty() ? NULL : m_shader_macros.data()`, line 43). -/
  pDefines : Option (List D3DShaderMacro)
  pInclude : IncludeArg
  pEntrypoint : String
  pTarget : String
  flags1 : Nat
  flags2 : Nat
deriving DecidableEq, Repr

/-- The exception `CDXShaderException` (CShader.cpp lines 6-18), including
the `m_hr` member inherited from `CHResultException`
(HResultException.cpp lines 46-50). -/
structure CDXShaderException where
  m_hr : Int
  m_error : String
deriving DecidableEq, Repr

/-- Constructing a `CDXShaderException hr p_error p_shader_error`.
The base-class constructor `CHResultException` IGNORES its `hr` parameter:
it assigns `m_hr = ::GetErrorInfo(0, &m_p_error)` (HResultException.cpp
line 49), so the stored status is the return value of that error-info
query, never the HRESULT passed in. `m_error` starts as the prefix string
and, when the error blob is non-null, appends its buffer text verbatim
(CShader.cpp lines 7-12). -/
def CDXShaderException.make (hr : Int) (p_error : String)
    (p_shader_error : Option String) (getErrorInfoResult : Int) :
    CDXShaderException :=
  { m_hr := getErrorInfoResult
    m_error :=
      match p_shader_error with
      | some text => p_error ++ text
      | none => p_error }

/-- The state of one `CShader` object: every data member of class
`CShader` (main.cpp lines 625-639 of the embedded header text). -/
structure CShader where
  m_code : String
  m_entry_point : String
  m_name : String
  m_target : String
  m_macros : List ShaderMacro
  m_shader_macros : List D3DShaderMacro
  m_p_include : Option Nat
  m_flags1 : Nat
  m_flags2 : Nat
  m_is_macro_changed : Bool
  m_is_config_changed : Bool
  m_p_cached_byte_code : Option Nat
deriving DecidableEq, Repr

/-- The default-constructed `CShader`: strings and sequences empty
(`m_shader_macros` with initializer 0 selects the size constructor and is
empty), no include handler, zero flags, BOTH dirty flags true, null cache
(member initializers, main.cpp lines 628-639). -/
def CShader.init : CShader :=
  { m_code := ""
    m_entry_point := ""
    m_name := ""
    m_target := ""
    m_macros := []
    m_shader_macros := []
    m_p_include := none
    m_flags1 := 0
    m_flags2 := 0
    m_is_macro_changed := true
    m_is_config_changed := true
    m_p_cached_byte_code := none }

/-- `CShader::SetCode` (CShader.cpp lines 65-71). -/
def CShader.SetCode (s : CShader) (code : String) : CShader :=
  { s with m_is_config_changed := true, m_code := code }

/-- `CShader::SetEntryPoint` (CShader.cpp lines 79-85). -/
def CShader.SetEntryPoint (s : CShader) (entry_point : String) : CShader :=
  { s with m_is_config_changed := true, m_entry_point := entry_point }

/-- `CShader::SetName` (CShader.cpp lines 93-99). -/
def CShader.SetName (s : CShader) (name : String) : CShader :=
  { s with m_is_config_changed := true, m_name := name }

/-- `CShader::SetTarget` (CShader.cpp lines 107-113). -/
def CShader.SetTarget (s : CShader) (target : String) : CShader :=
  { s with m_is_config_changed := true, m_target := target }

/-- `CShader::AddMacro` (CShader.cpp lines 115-121): sets
`m_is_config_changed` and appends. Note that it does NOT touch
`m_is_macro_changed`. -/
def CShader.AddMacro (s : CShader) (mac : ShaderMacro) : CShader :=
  { s with m_is_config_changed := true, m_macros := s.m_macros ++ [mac] }

/-- The effect of line 127 of CShader.cpp on the vector contents:
`std::ignore = std::remove_if(...)` with an exact-name predicate. The kept
(non-matching) elements are shifted to the front in their original order;
the result iterator is discarded, so NO erase happens and the vector keeps
its length. The C++ leaves the tail slots in a valid but unspecified
(moved-from) state; this model leaves the previous values in those slots.
No theorem below depends on the content of the tail, only on its length. -/
def removeIfByNameNoErase (macros : List ShaderMacro) (name : String) :
    List ShaderMacro :=
  let kept := macros.filter (fun x => x.m_name != name)
  kept ++ macros.drop kept.length

/-- `CShader::DeleteMacro` (CShader.cpp lines 123-130). -/
def CShader.DeleteMacro (s : CShader) (name : String) : CShader :=
  { s with m_is_config_changed := true
           m_macros := removeIfByNameNoErase s.m_macros name }

/-- `CShader::SetFlags1` (CShader.cpp lines 143-149). -/
def CShader.SetFlags1 (s : CShader) (flags1 : Nat) : CShader :=
  { s with m_is_config_changed := true, m_flags1 := flags1 }

/-- `CShader::SetFlags2` (CShader.cpp lines 156-162). -/
def CShader.SetFlags2 (s : CShader) (flags2 : Nat) : CShader :=
  { s with m_is_config_changed := true, m_flags2 := flags2 }

/-- `CShader::SetInclude` (CShader.cpp lines 171-177). -/
def CShader.SetInclude (s : CShader) (p_include : Option Nat) : CShader :=
  { s with m_is_config_changed := true, m_p_include := p_include }

/-- `CShader::GetInclude` (CShader.cpp lines 164-169): despite being an
accessor it assigns `m_is_config_changed = true` before returning the
handler. Returns the pair of the returned value and the mutated state. -/
def CShader.GetInclude (s : CShader) : Option Nat × CShader :=
  (s.m_p_include, { s with m_is_config_changed := true })

/-- Lines 23-33 of CShader.cpp: when `m_is_macro_changed` and the macro
list is non-empty, resize `m_shader_macros` to `m_macros.size() + 1`,
transform every `ShaderMacro` into a native name/definition pair in the
first `size` slots, and force the last slot to the (NULL, NULL) sentinel;
the net result is exactly the projection of `m_macros` followed by the
sentinel. In all cases `m_is_macro_changed` is then cleared. -/
def CShader.rebuildMacros (s : CShader) : CShader :=
  let projected : List D3DShaderMacro :=
    s.m_macros.map (fun current => ⟨some current.m_name, some current.m_definition⟩)
  let s1 :=
    if s.m_is_macro_changed && !s.m_macros.isEmpty then
      { s with m_shader_macros := projected ++ [⟨none, none⟩] }
    else s
  { s1 with m_is_macro_changed := false }

/-- The argument tuple passed to `D3DCompile` from a given state
(CShader.cpp lines 39-50). `srcDataSize` is `m_code.size()`, the byte
length of the source string. -/
def CShader.compileArgs (s : CShader) : D3DCompileArgs :=
  { pSrcData := s.m_code
    srcDataSize := s.m_code.utf8ByteSize
    pSourceName := s.m_name
    pDefines := if s.m_macros.isEmpty then none else some s.m_shader_macros
    pInclude :=
      match s.m_p_include with
      | none => .standardFileInclude
      | some h => .custom h
    pEntrypoint := s.m_entry_point
    pTarget := s.m_target
    flags1 := s.m_flags1
    flags2 := s.m_flags2 }

/-- `CShader::Compile` (CShader.cpp lines 20-57), with the external
`D3DCompile` outcome supplied by the oracle `r`. Returns the outcome
(`Except.error` models the thrown `CDXShaderException`), the state after
the call, and the list of `D3DCompile` invocations performed.

When `m_is_config_changed` holds, `D3DCompile` is invoked once. Its
bytecode out-parameter is `&m_p_cached_byte_code`; on a WRL `ComPtr`,
`operator&` is `ReleaseAndGetAddressOf`, which releases the held blob
before the call, and a failed `D3DCompile` stores no bytecode — so on
failure the cache is null and `ThrowIfFailed` throws a
`CDXShaderException` built from the HRESULT, the fixed prefix message and
the error blob; `m_is_config_changed` is cleared only on success
(line 53, after the throw point). The function returns
`m_p_cached_byte_code` (line 56). -/
def CShader.Compile (s : CShader) (r : CompileResult) :
    Except CDXShaderException (Option Nat) × CShader × List D3DCompileArgs :=
  let s1 := CShader.rebuildMacros s
  if s1.m_is_config_changed then
    match r with
    | .ok blob =>
        (Except.ok (some blob),
         { s1 with m_p_cached_byte_code := some blob
                   m_is_config_changed := false },
         [CShader.compileArgs s1])
    | .fail hr errorMessage getErrorInfoResult =>
        (Except.error
           (CDXShaderException.make hr "Compile DX shader failed."
              errorMessage getErrorInfoResult),
         { s1 with m_p_cached_byte_code := none },
         [CShader.compileArgs s1])
  else
    (Except.ok s1.m_p_cached_byte_code, s1, [])

/-- One operation on a `CShader`, for reasoning about call sequences.
Each constructor is one public member-function call; `compile r` carries
the oracle for the external compiler at that call. -/
inductive Op where
  | setCode (code : String)
  | setEntryPoint (entry_point : String)
  | setName (name : String)
  | setTarget (target : String)
  | addMacro (mac : ShaderMacro)
  | deleteMacro (name : String)
  | setFlags1 (flags1 : Nat)
  | setFlags2 (flags2 : Nat)
  | setInclude (p_include : Option Nat)
  | getInclude
  | compile (r : CompileResult)
deriving DecidableEq, Repr

/-- The nine fluent mutators of the configuration surface. `getInclude`
and `compile` are not mutators. -/
def Op.isMutator : Op → Bool
  | .setCode _ => true
  | .setEntryPoint _ => true
  | .setName _ => true
  | .setTarget _ => true
  | .addMacro _ => true
  | .deleteMacro _ => true
  | .setFlags1 _ => true
  | .setFlags2 _ => true
  | .setInclude _ => true
  | .getInclude => false
  | .compile _ => false

/-- The two macro-list mutators. -/
def Op.isMacroMutation : Op → Bool
  | .addMacro _ => true
  | .deleteMacro _ => true
  | _ => false

/-- State transition of one operation (return values discarded). -/
def CShader.step (s : CShader) (op : Op) : CShader :=
  match op with
  | .setCode code => CShader.SetCode s code
  | .setEntryPoint e => CShader.SetEntryPoint s e
  | .setName n => CShader.SetName s n
  | .setTarget t => CShader.SetTarget s t
  | .addMacro mac => CShader.AddMacro s mac
  | .deleteMacro n => CShader.DeleteMacro s n
  | .setFlags1 f => CShader.SetFlags1 s f
  | .setFlags2 f => CShader.SetFlags2 s f
  | .setInclude p => CShader.SetInclude s p
  | .getInclude => (CShader.GetInclude s).2
  | .compile r => (CShader.Compile s r).2.1

/-- Run a sequence of operations from a state. -/
def CShader.run (s : CShader) : List Op → CShader
  | [] => s
  | op :: rest => CShader.run (CShader.step s op) rest

/-- The oracle results of the external compiler invocations a sequence of
operations actually performs from a given state: a `compile` op invokes
`D3DCompile` exactly when `m_is_config_changed` holds at that moment
(the macro-rebuild step never changes that flag). -/
def CShader.invocationsFrom (s : CShader) : List Op → List CompileResult
  | [] => []
  | op :: rest =>
      (match op with
       | .compile r => if s.m_is_config_changed then [r] else []
       | _ => []) ++ CShader.invocationsFrom (CShader.step s op) rest

/-! Helper lemmas about the macro-rebuild step and `Compile`. -/

@[simp]
theorem rebuildMacros_isMacroChanged (s : CShader) :
    (CShader.rebuildMacros s).m_is_macro_changed = false := by
  by_cases h : (s.m_is_macro_changed && !s.m_macros.isEmpty) = true <;>
    simp [CShader.rebuildMacros, h]

@[simp]
theorem rebuildMacros_isConfigChanged (s : CShader) :
    (CShader.rebuildMacros s).m_is_config_changed = s.m_is_config_changed := by
  by_cases h : (s.m_is_macro_changed && !s.m_macros.isEmpty) = true <;>
    simp [CShader.rebuildMacros, h]

@[simp]
theorem rebuildMacros_macros (s : CShader) :
    (CShader.rebuildMacros s).m_macros = s.m_macros := by
  by_cases h : (s.m_is_macro_changed && !s.m_macros.isEmpty) = true <;>
    simp [CShader.rebuildMacros, h]

@[simp]
theorem rebuildMacros_cache (s : CShader) :
    (CShader.rebuildMacros s).m_p_cached_byte_code = s.m_p_cached_byte_code := by
  by_cases h : (s.m_is_macro_changed && !s.m_macros.isEmpty) = true <;>
    simp [CShader.rebuildMacros, h]

theorem rebuildMacros_shader_macros_of_empty (s : CShader)
    (h : s.m_macros = []) :
    (CShader.rebuildMacros s).m_shader_macros = s.m_shader_macros := by
  simp [CShader.rebuildMacros, h]

theorem rebuildMacros_shader_macros_of_changed (s : CShader)
    (h1 : s.m_is_macro_changed = true) (h2 : s.m_macros ≠ []) :
    (CShader.rebuildMacros s).m_shader_macros =
      s.m_macros.map
        (fun current => ⟨some current.m_name, some current.m_definition⟩)
      ++ [⟨none, none⟩] := by
  have hne : s.m_macros.isEmpty = false := by
    cases hm : s.m_macros with
    | nil => exact absurd hm h2
    | cons a t => rfl
  simp [CShader.rebuildMacros, h1, hne]

theorem compile_of_clean (s : CShader) (r : CompileResult)
    (h : s.m_is_config_changed = false) :
    CShader.Compile s r =
      (Except.ok s.m_p_cached_byte_code, CShader.rebuildMacros s, []) := by
  simp [CShader.Compile, h]

theorem compile_of_dirty_ok (s : CShader) (blob : Nat)
    (h : s.m_is_config_changed = true) :
    CShader.Compile s (CompileResult.ok blob) =
      (Except.ok (some blob),
       { CShader.rebuildMacros s with
           m_p_cached_byte_code := some blob
           m_is_config_changed := false },
       [CShader.compileArgs (CShader.rebuildMacros s)]) := by
  simp [CShader.Compile, h]

theorem compile_of_dirty_fail (s : CShader) (hr : Int) (e : Option String)
    (g : Int) (h : s.m_is_config_changed = true) :
    CShader.Compile s (CompileResult.fail hr e g) =
      (Except.error
         (CDXShaderException.make hr "Compile DX shader failed." e g),
       { CShader.rebuildMacros s with m_p_cached_byte_code := none },
       [CShader.compileArgs (CShader.rebuildMacros s)]) := by
  simp [CShader.Compile, h]

theorem compile_state_isMacroChanged (s : CShader) (r : CompileResult) :
    (CShader.Compile s r).2.1.m_is_macro_changed = false := by
  by_cases h : s.m_is_config_changed = true
  · cases r with
    | ok blob => rw [compile_of_dirty_ok s blob h]; simp
    | fail hr e g => rw [compile_of_dirty_fail s hr e g h]; simp
  · rw [compile_of_clean s r (by simpa using h)]
    simp

/-- The new cache value after a list of compiler invocations, starting from
cache value `c`: each successful invocation installs its blob, each failed
one leaves the cache released (null). -/
def cacheAfterInvocations (c : Option Nat) (l : List CompileResult) :
    Option Nat :=
  l.foldl
    (fun _ r =>
      match r with
      | .ok blob => some blob
      | .fail _ _ _ => none) c

/-- Whether the last invocation of a list succeeded (`false` for the empty
list). -/
def lastInvocationSucceeded (l : List CompileResult) : Bool :=
  l.foldl (fun _ r => CompileResult.isOk r) false

theorem cacheAfterInvocations_cons (c : Option Nat) (r : CompileResult)
    (l : List CompileResult) :
    cacheAfterInvocations c (r :: l) =
      cacheAfterInvocations
        (match r with
         | .ok blob => some blob
         | .fail _ _ _ => none) l := rfl

theorem step_of_mutator_cache (s : CShader) (op : Op)
    (h : Op.isMutator op = true) :
    (CShader.step s op).m_p_cached_byte_code = s.m_p_cached_byte_code ∧
    (CShader.step s op).m_is_config_changed = true := by
  cases op <;>
    simp_all [CShader.step, Op.isMutator, CShader.SetCode,
      CShader.SetEntryPoint, CShader.SetName, CShader.SetTarget,
      CShader.AddMacro, CShader.DeleteMacro, CShader.SetFlags1,
      CShader.SetFlags2, CShader.SetInclude]

theorem run_cache_eq (ops : List Op) : ∀ s : CShader,
    (CShader.run s ops).m_p_cached_byte_code =
      cacheAfterInvocations s.m_p_cached_byte_code
        (CShader.invocationsFrom s ops) := by
  induction ops with
  | nil => intro s; rfl
  | cons op rest ih =>
      intro s
      cases op with
      | compile r =>
          by_cases h : s.m_is_config_changed = true
          · cases r with
            | ok blob =>
                simp only [CShader.run, CShader.step, CShader.invocationsFrom,
                  h, if_pos rfl, List.singleton_append,
                  compile_of_dirty_ok s blob h]
                rw [ih]
                simp [cacheAfterInvocations_cons]
            | fail hr e g =>
                simp only [CShader.run, CShader.step, CShader.invocationsFrom,
                  h, if_pos rfl, List.singleton_append,
                  compile_of_dirty_fail s hr e g h]
                rw [ih]
                simp [cacheAfterInvocations_cons]
          · have h' : s.m_is_config_changed = false := by simpa using h
            simp only [CShader.run, CShader.step, CShader.invocationsFrom, h',
              Bool.false_eq_true, if_neg (by simp : ¬(false = true)),
              compile_of_clean s r h']
            rw [ih, rebuildMacros_cache]
            simp
      | setCode c =>
          simp only [CShader.run, CShader.step, CShader.invocationsFrom,
            List.nil_append]
          rw [ih]; rfl
      | setEntryPoint e =>
          simp only [CShader.run, CShader.step, CShader.invocationsFrom,
            List.nil_append]
          rw [ih]; rfl
      | setName n =>
          simp only [CShader.run, CShader.step, CShader.invocationsFrom,
            List.nil_append]
          rw [ih]; rfl
      | setTarget t =>
          simp only [CShader.run, CShader.step, CShader.invocationsFrom,
            List.nil_append]
          rw [ih]; rfl
      | addMacro mac =>
          simp only [CShader.run, CShader.step, CShader.invocationsFrom,
            List.nil_append]
          rw [ih]; rfl
      | deleteMacro n =>
          simp only [CShader.run, CShader.step, CShader.invocationsFrom,
            List.nil_append]
          rw [ih]; rfl
      | setFlags1 f =>
          simp only [CShader.run, CShader.step, CShader.invocationsFrom,
            List.nil_append]
          rw [ih]; rfl
      | setFlags2 f =>
          simp only [CShader.run, CShader.step, CShader.invocationsFrom,
            List.nil_append]
          rw [ih]; rfl
      | setInclude p =>
          simp only [CShader.run, CShader.step, CShader.invocationsFrom,
            List.nil_append]
          rw [ih]; rfl
      | getInclude =>
          simp only [CShader.run, CShader.step, CShader.invocationsFrom,
            List.nil_append]
          rw [ih]; rfl

theorem cacheAfterInvocations_isSome (l : List CompileResult) :
    ∀ c : Option Nat,
      (cacheAfterInvocations c l).isSome =
        l.foldl (fun _ r => CompileResult.isOk r) c.isSome := by
  induction l with
  | nil => intro c; rfl
  | cons r t ih =>
      intro c
      cases r with
      | ok blob =>
          rw [cacheAfterInvocations_cons]
          simpa [CompileResult.isOk] using ih (some blob)
      | fail hr e g =>
          rw [cacheAfterInvocations_cons]
          simpa [CompileResult.isOk] using ih none

theorem compile_state_shader_macros (s : CShader) (r : CompileResult) :
    (CShader.Compile s r).2.1.m_shader_macros =
      (CShader.rebuildMacros s).m_shader_macros := by
  by_cases h : s.m_is_config_changed = true
  · cases r with
    | ok blob => rw [compile_of_dirty_ok s blob h]
    | fail hr e g => rw [compile_of_dirty_fail s hr e g h]
  · rw [compile_of_clean s r (by simpa using h)]

theorem compile_state_macros (s : CShader) (r : CompileResult) :
    (CShader.Compile s r).2.1.m_macros = s.m_macros := by
  by_cases h : s.m_is_config_changed = true
  · cases r with
    | ok blob => rw [compile_of_dirty_ok s blob h]; simp
    | fail hr e g => rw [compile_of_dirty_fail s hr e g h]; simp
  · rw [compile_of_clean s r (by simpa using h)]; simp

theorem run_mutators_effect (ops : List Op) : ∀ s : CShader, ops ≠ [] →
    (∀ op ∈ ops, Op.isMutator op = true) →
    (CShader.run s ops).m_is_config_changed = true ∧
    (CShader.run s ops).m_p_cached_byte_code = s.m_p_cached_byte_code := by
  induction ops with
  | nil => intro s h _; exact absurd rfl h
  | cons op rest ih =>
      intro s _ hall
      have hop := hall op (List.mem_cons_self op rest)
      by_cases hrest : rest = []
      · subst hrest
        constructor
        · simpa [CShader.run] using (step_of_mutator_cache s op hop).2
        · simpa [CShader.run] using (step_of_mutator_cache s op hop).1
      · have h2 := ih (CShader.step s op) hrest
          (fun o ho => hall o (List.mem_cons_of_mem op ho))
        refine ⟨h2.1, ?_⟩
        calc (CShader.run s (op :: rest)).m_p_cached_byte_code
            = (CShader.run (CShader.step s op) rest).m_p_cached_byte_code := rfl
          _ = (CShader.step s op).m_p_cached_byte_code := h2.2
          _ = s.m_p_cached_byte_code := (step_of_mutator_cache s op hop).1

/-- A `CShader` in the Clean state: successfully compiled, both dirty flags
false, holding cached bytecode blob 5. Used as a concrete input by
witnesses. -/
def cleanUnit : CShader :=
  CShader.run CShader.init [Op.setCode "a", Op.compile (CompileResult.ok 5)]

/-! The claims. -/

/-- C1: the claim states that every mutator sets `configDirty = true` (which
holds) and that `AddMacro` and `DeleteMacro` additionally set
`macrosDirty = true`. Evaluating the code at the failing input — a freshly
constructed unit that is compiled once and then mutated with `AddMacro`
(and then `DeleteMacro`) — shows `m_is_macro_changed` stays `false`: no
mutator in CShader.cpp ever assigns `m_is_macro_changed`, so the flag can
never become true again after the first `Compile` call clears it. -/
theorem macro_mutators_leave_macrosDirty_false :
    (CShader.AddMacro
        (CShader.run CShader.init [Op.compile (CompileResult.ok 1)])
        ⟨"A", "1"⟩).m_is_config_changed = true ∧
    (CShader.AddMacro
        (CShader.run CShader.init [Op.compile (CompileResult.ok 1)])
        ⟨"A", "1"⟩).m_is_macro_changed = false ∧
    (CShader.DeleteMacro
        (CShader.AddMacro
          (CShader.run CShader.init [Op.compile (CompileResult.ok 1)])
          ⟨"A", "1"⟩) "A").m_is_macro_changed = false := by
  decide

/-- C2: the claim demands that after configuring N macros, deleting one by
exact name and compiling, the projected array contain N−1 real entries plus
the sentinel. Evaluating the code at N = 1: after `AddMacro ("A","1")`,
`DeleteMacro "A"` and a successful `Compile`, the backing sequence still
has 1 entry (the `std::remove_if` result is discarded, so nothing is
erased) and the projected array is the "A" entry followed by the sentinel —
1 real entry instead of 0. -/
theorem deleteMacro_then_compile_keeps_deleted_entry :
    (CShader.run CShader.init
        [Op.addMacro ⟨"A", "1"⟩, Op.deleteMacro "A",
         Op.compile (CompileResult.ok 1)]).m_macros.length = 1 ∧
    (CShader.run CShader.init
        [Op.addMacro ⟨"A", "1"⟩, Op.deleteMacro "A",
         Op.compile (CompileResult.ok 1)]).m_shader_macros =
      [⟨some "A", some "1"⟩, ⟨none, none⟩] := by
  decide

/-- C3: if a `Compile()` call returns successfully, then a second
`Compile()` with no intervening mutation performs zero additional compiler
invocations (the two calls together perform at most one), returns the same
outcome as the first call, and that outcome is exactly the cached artifact
held after the first call. -/
theorem compile_twice_idempotent (s : CShader) (o1 o2 : CompileResult)
    (h : (CShader.Compile s o1).1.isOk = true) :
    (CShader.Compile s o1).2.2.length +
      (CShader.Compile (CShader.Compile s o1).2.1 o2).2.2.length ≤ 1 ∧
    (CShader.Compile (CShader.Compile s o1).2.1 o2).2.2.length = 0 ∧
    (CShader.Compile (CShader.Compile s o1).2.1 o2).1 =
      (CShader.Compile s o1).1 ∧
    (CShader.Compile (CShader.Compile s o1).2.1 o2).1 =
      Except.ok ((CShader.Compile s o1).2.1.m_p_cached_byte_code) := by
  by_cases hc : s.m_is_config_changed = true
  · cases o1 with
    | ok blob =>
        rw [compile_of_dirty_ok s blob hc]
        rw [compile_of_clean _ o2 rfl]
        simp
    | fail hr e g =>
        rw [compile_of_dirty_fail s hr e g hc] at h
        simp [Except.isOk, Except.toBool] at h
  · have hc' : s.m_is_config_changed = false := by simpa using hc
    rw [compile_of_clean s o1 hc']
    rw [compile_of_clean _ o2 (by simp [hc'])]
    simp

/-- C3 witness: concrete instance of `compile_twice_idempotent` on a fresh
unit whose first compile succeeds with blob 3. -/
theorem compile_twice_idempotent_witness :
    (CShader.Compile CShader.init (CompileResult.ok 3)).1.isOk = true ∧
    ((CShader.Compile CShader.init (CompileResult.ok 3)).2.2.length +
       (CShader.Compile
          (CShader.Compile CShader.init (CompileResult.ok 3)).2.1
          (CompileResult.ok 9)).2.2.length ≤ 1 ∧
     (CShader.Compile (CShader.Compile CShader.init (CompileResult.ok 3)).2.1
        (CompileResult.ok 9)).2.2.length = 0 ∧
     (CShader.Compile (CShader.Compile CShader.init (CompileResult.ok 3)).2.1
        (CompileResult.ok 9)).1 =
       (CShader.Compile CShader.init (CompileResult.ok 3)).1 ∧
     (CShader.Compile (CShader.Compile CShader.init (CompileResult.ok 3)).2.1
        (CompileResult.ok 9)).1 =
       Except.ok ((CShader.Compile CShader.init
          (CompileResult.ok 3)).2.1.m_p_cached_byte_code)) :=
  ⟨rfl, compile_twice_idempotent CShader.init (CompileResult.ok 3)
    (CompileResult.ok 9) rfl⟩

/-- C4 counterexample: the claim says the raised exception carries the
underlying status code. Compiling a dirty fresh unit with a compiler
failure whose HRESULT is −2147467259 (E_FAIL) while the `::GetErrorInfo`
call performed by the exception constructor returns 1 (S_FALSE): the
raised exception stores `m_hr = 1`, the error-info query result — the
failing status code −2147467259 is discarded by the `CHResultException`
constructor (HResultException.cpp line 49), so the exception does not
carry it. -/
theorem compile_failure_status_not_carried :
    (CShader.Compile CShader.init
        (CompileResult.fail (-2147467259) (some "syntax error") 1)).1 =
      Except.error ⟨1, "Compile DX shader failed.syntax error"⟩ ∧
    (1 : Int) ≠ -2147467259 :=
  ⟨rfl, by decide⟩

/-- C4 (amended): when the compiler invocation fails, `Compile()` raises a
`CDXShaderException` whose message is the fixed prefix
"Compile DX shader failed." with any compiler diagnostic text appended
verbatim after it, and leaves `configDirty` set, so a subsequent
`Compile()` with unchanged configuration performs exactly one new compiler
invocation rather than returning a cached value. (The status code passed
to the exception is discarded; the stored `m_hr` is the result of the
error-info query — see the counterexample.) The failed call also leaves
the cache null, since the `ComPtr` out-parameter releases the old blob. -/
theorem compile_failure_behavior (s : CShader) (hr : Int) (e : Option String)
    (g : Int) (hdirty : s.m_is_config_changed = true) :
    (CShader.Compile s (CompileResult.fail hr e g)).1 =
      Except.error
        (CDXShaderException.make hr "Compile DX shader failed." e g) ∧
    (CDXShaderException.make hr "Compile DX shader failed." e g).m_error =
      "Compile DX shader failed." ++ e.getD "" ∧
    (CShader.Compile s (CompileResult.fail hr e g)).2.1.m_is_config_changed =
      true ∧
    (CShader.Compile s (CompileResult.fail hr e g)).2.1.m_p_cached_byte_code =
      none ∧
    ∀ r2, (CShader.Compile
        (CShader.Compile s (CompileResult.fail hr e g)).2.1 r2).2.2.length =
      1 := by
  rw [compile_of_dirty_fail s hr e g hdirty]
  refine ⟨rfl, ?_, ?_, rfl, ?_⟩
  · cases e <;> simp [CDXShaderException.make]
  · simp [hdirty]
  · intro r2
    cases r2 with
    | ok blob => rw [compile_of_dirty_ok _ blob (by simp [hdirty])]; rfl
    | fail h2 e2 g2 =>
        rw [compile_of_dirty_fail _ h2 e2 g2 (by simp [hdirty])]; rfl

/-- C4 witness: concrete instance of `compile_failure_behavior` on a fresh
(dirty) unit, with the retry compile instantiated at a succeeding oracle. -/
theorem compile_failure_behavior_witness :
    CShader.init.m_is_config_changed = true ∧
    (CShader.Compile CShader.init
        (CompileResult.fail (-1) (some "syntax error") 0)).1 =
      Except.error (CDXShaderException.make (-1) "Compile DX shader failed."
        (some "syntax error") 0) ∧
    (CDXShaderException.make (-1) "Compile DX shader failed."
        (some "syntax error") 0).m_error =
      "Compile DX shader failed." ++ (some "syntax error").getD "" ∧
    (CShader.Compile CShader.init
        (CompileResult.fail (-1) (some "syntax error")
          0)).2.1.m_is_config_changed = true ∧
    (CShader.Compile CShader.init
        (CompileResult.fail (-1) (some "syntax error")
          0)).2.1.m_p_cached_byte_code = none ∧
    (CShader.Compile
        (CShader.Compile CShader.init
          (CompileResult.fail (-1) (some "syntax error") 0)).2.1
        (CompileResult.ok 9)).2.2.length = 1 :=
  ⟨rfl,
   (compile_failure_behavior CShader.init (-1) (some "syntax error") 0 rfl).1,
   (compile_failure_behavior CShader.init (-1) (some "syntax error") 0
     rfl).2.1,
   (compile_failure_behavior CShader.init (-1) (some "syntax error") 0
     rfl).2.2.1,
   (compile_failure_behavior CShader.init (-1) (some "syntax error") 0
     rfl).2.2.2.1,
   (compile_failure_behavior CShader.init (-1) (some "syntax error") 0
     rfl).2.2.2.2 (CompileResult.ok 9)⟩

/-- C5 counterexample: the claim's invariant says the cache is non-null iff
a compile succeeded since the most recent configuration change that set
`configDirty`. After `SetCode "a"`, a successful `Compile`, and then
`SetCode "b"`, the cache still holds blob 7 and `configDirty` is set, yet
the step after the last configuration change performs no compiler
invocation at all — so no compile succeeded since that change, while the
cache is non-null: mutators do not release the cached artifact. -/
theorem cache_survives_mutation_after_success :
    (CShader.run CShader.init
        [Op.setCode "a", Op.compile (CompileResult.ok 7),
         Op.setCode "b"]).m_p_cached_byte_code = some 7 ∧
    (CShader.run CShader.init
        [Op.setCode "a", Op.compile (CompileResult.ok 7),
         Op.setCode "b"]).m_is_config_changed = true ∧
    CShader.invocationsFrom
        (CShader.run CShader.init
          [Op.setCode "a", Op.compile (CompileResult.ok 7)])
        [Op.setCode "b"] = [] := by
  decide

/-- C5 (amended): for every sequence of operations on a freshly constructed
unit, the cached bytecode is non-null if and only if at least one compiler
invocation has occurred and the most recent one succeeded; configuration
changes do not invalidate the cache. -/
theorem cache_some_iff_last_invocation_ok (ops : List Op) :
    (CShader.run CShader.init ops).m_p_cached_byte_code.isSome =
      lastInvocationSucceeded (CShader.invocationsFrom CShader.init ops) := by
  rw [run_cache_eq]
  rw [show CShader.init.m_p_cached_byte_code = none from rfl]
  rw [cacheAfterInvocations_isSome]
  rfl

/-- C6: after a macro mutation (`AddMacro` or `DeleteMacro`), a `Compile()`
call that triggers the rebuild of the projected macro array (`macrosDirty`
set and macro list non-empty) leaves the array with exactly
`macros.size() + 1` entries, the last being the (NULL, NULL) sentinel. -/
theorem compiledMacroArray_length_and_sentinel (s : CShader) (op : Op)
    (hop : Op.isMacroMutation op = true)
    (hflag : (CShader.step s op).m_is_macro_changed = true)
    (hne : (CShader.step s op).m_macros ≠ [])
    (r : CompileResult) :
    (CShader.step (CShader.step s op)
        (Op.compile r)).m_shader_macros.length =
      (CShader.step (CShader.step s op) (Op.compile r)).m_macros.length + 1 ∧
    (CShader.step (CShader.step s op)
        (Op.compile r)).m_shader_macros.getLast? = some ⟨none, none⟩ := by
  have hsm : (CShader.step (CShader.step s op)
      (Op.compile r)).m_shader_macros =
      (CShader.step s op).m_macros.map
        (fun current => ⟨some current.m_name, some current.m_definition⟩)
      ++ [⟨none, none⟩] := by
    show (CShader.Compile (CShader.step s op) r).2.1.m_shader_macros = _
    rw [compile_state_shader_macros]
    exact rebuildMacros_shader_macros_of_changed (CShader.step s op) hflag hne
  have hm : (CShader.step (CShader.step s op) (Op.compile r)).m_macros =
      (CShader.step s op).m_macros := by
    show (CShader.Compile (CShader.step s op) r).2.1.m_macros = _
    exact compile_state_macros (CShader.step s op) r
  constructor
  · rw [hsm, hm]
    simp
  · rw [hsm]
    exact List.getLast?_concat _

/-- C6 witness: concrete instance on a fresh unit (whose `macrosDirty` flag
is still true from construction) mutated with `AddMacro ("A","1")` and then
compiled. -/
theorem compiledMacroArray_length_and_sentinel_witness :
    Op.isMacroMutation (Op.addMacro ⟨"A", "1"⟩) = true ∧
    (CShader.step CShader.init
        (Op.addMacro ⟨"A", "1"⟩)).m_is_macro_changed = true ∧
    (CShader.step CShader.init (Op.addMacro ⟨"A", "1"⟩)).m_macros ≠ [] ∧
    ((CShader.step (CShader.step CShader.init (Op.addMacro ⟨"A", "1"⟩))
        (Op.compile (CompileResult.ok 0))).m_shader_macros.length =
      (CShader.step (CShader.step CShader.init (Op.addMacro ⟨"A", "1"⟩))
        (Op.compile (CompileResult.ok 0))).m_macros.length + 1 ∧
     (CShader.step (CShader.step CShader.init (Op.addMacro ⟨"A", "1"⟩))
        (Op.compile (CompileResult.ok 0))).m_shader_macros.getLast? =
      some ⟨none, none⟩) :=
  ⟨rfl, rfl, by decide,
   compiledMacroArray_length_and_sentinel CShader.init
     (Op.addMacro ⟨"A", "1"⟩) rfl rfl (by decide) (CompileResult.ok 0)⟩

/-- C7: for every sequence of mutator calls with no `Compile()` between
them, `configDirty` is true after every non-empty prefix of the sequence,
and the cached bytecode artifact is never replaced or released by any of
the mutators. -/
theorem mutators_keep_configDirty_and_cache (s : CShader) (ops p q : List Op)
    (hsplit : ops = p ++ q) (hp : p ≠ [])
    (hmut : ∀ op ∈ ops, Op.isMutator op = true) :
    (CShader.run s p).m_is_config_changed = true ∧
    (CShader.run s p).m_p_cached_byte_code = s.m_p_cached_byte_code := by
  apply run_mutators_effect p s hp
  intro op hop
  apply hmut op
  rw [hsplit]
  exact List.mem_append_left q hop

/-- C7 witness: concrete instance on a Clean unit holding cached blob 5,
for the sequence SetTarget then SetFlags1, checked after its first
element. -/
theorem mutators_keep_configDirty_and_cache_witness :
    ([Op.setTarget "ps_5_0", Op.setFlags1 3] : List Op) =
      [Op.setTarget "ps_5_0"] ++ [Op.setFlags1 3] ∧
    ([Op.setTarget "ps_5_0"] : List Op) ≠ [] ∧
    ((CShader.run cleanUnit [Op.setTarget "ps_5_0"]).m_is_config_changed =
      true ∧
     (CShader.run cleanUnit [Op.setTarget "ps_5_0"]).m_p_cached_byte_code =
      cleanUnit.m_p_cached_byte_code) :=
  ⟨rfl, by decide,
   mutators_keep_configDirty_and_cache cleanUnit
     [Op.setTarget "ps_5_0", Op.setFlags1 3] [Op.setTarget "ps_5_0"]
     [Op.setFlags1 3] rfl (by decide) (by decide)⟩

/-- C8: after any `Compile()` call — whatever the compiler outcome —
`macrosDirty` is false; and when the macro list is empty, no projected
array is rebuilt (`m_shader_macros` is untouched) and every compiler
invocation the call performs receives a NULL macro pointer rather than an
empty array. -/
theorem compile_clears_macrosDirty (s : CShader) (r : CompileResult) :
    (CShader.Compile s r).2.1.m_is_macro_changed = false ∧
    (s.m_macros = [] →
      (CShader.Compile s r).2.1.m_shader_macros = s.m_shader_macros ∧
      ∀ args ∈ (CShader.Compile s r).2.2, args.pDefines = none) := by
  refine ⟨compile_state_isMacroChanged s r, fun hemp => ⟨?_, ?_⟩⟩
  · rw [compile_state_shader_macros]
    exact rebuildMacros_shader_macros_of_empty s hemp
  · intro args hargs
    by_cases hc : s.m_is_config_changed = true
    · have hargs' : args = CShader.compileArgs (CShader.rebuildMacros s) := by
        cases r with
        | ok blob =>
            rw [compile_of_dirty_ok s blob hc] at hargs
            simpa using hargs
        | fail h2 e2 g2 =>
            rw [compile_of_dirty_fail s h2 e2 g2 hc] at hargs
            simpa using hargs
      rw [hargs']
      simp [CShader.compileArgs, hemp]
    · rw [compile_of_clean s r (by simpa using hc)] at hargs
      simp at hargs

/-- C8 witness: concrete instance of `compile_clears_macrosDirty` on a
fresh unit (empty macro list), whose one compiler invocation receives a
NULL macro pointer. -/
theorem compile_clears_macrosDirty_witness :
    CShader.init.m_macros = [] ∧
    (CShader.Compile CShader.init
        (CompileResult.ok 2)).2.1.m_is_macro_changed = false ∧
    (CShader.Compile CShader.init (CompileResult.ok 2)).2.1.m_shader_macros =
      CShader.init.m_shader_macros ∧
    (CShader.compileArgs (CShader.rebuildMacros CShader.init)).pDefines =
      none :=
  ⟨rfl,
   (compile_clears_macrosDirty CShader.init (CompileResult.ok 2)).1,
   ((compile_clears_macrosDirty CShader.init (CompileResult.ok 2)).2 rfl).1,
   ((compile_clears_macrosDirty CShader.init (CompileResult.ok 2)).2 rfl).2
     (CShader.compileArgs (CShader.rebuildMacros CShader.init)) (by decide)⟩

/-- C9: `DeleteMacro(name)` leaves the length of the macro sequence
unchanged — the removal step moves the kept (non-matching) entries to the
front of the sequence (a partition) but never erases anything from the
backing storage — and it marks `configDirty`. -/
theorem deleteMacro_preserves_length (s : CShader) (name : String) :
    (CShader.DeleteMacro s name).m_macros.length = s.m_macros.length ∧
    (CShader.DeleteMacro s name).m_macros.take
        (s.m_macros.filter (fun x => x.m_name != name)).length =
      s.m_macros.filter (fun x => x.m_name != name) ∧
    (CShader.DeleteMacro s name).m_is_config_changed = true := by
  refine ⟨?_, ?_, rfl⟩
  · simp only [CShader.DeleteMacro, removeIfByNameNoErase,
      List.length_append, List.length_drop]
    have := List.length_filter_le (fun x => x.m_name != name) s.m_macros
    omega
  · simp only [CShader.DeleteMacro, removeIfByNameNoErase]
    exact List.take_left _ _

/-- C10: `GetInclude`, although an accessor, assigns
`m_is_config_changed = true`; it returns the configured include handler and
changes no other field. Consequently, on a unit whose configuration is
clean, calling `GetInclude()` makes the next `Compile()` perform one
compiler invocation even though no mutator was called. -/
theorem getInclude_marks_configDirty (s : CShader) :
    CShader.GetInclude s =
      (s.m_p_include, { s with m_is_config_changed := true }) ∧
    (s.m_is_config_changed = false →
      ∀ r, (CShader.Compile (CShader.GetInclude s).2 r).2.2.length = 1) := by
  refine ⟨rfl, fun _ r => ?_⟩
  have hdirty : (CShader.GetInclude s).2.m_is_config_changed = true := rfl
  cases r with
  | ok blob => rw [compile_of_dirty_ok _ blob hdirty]; rfl
  | fail h2 e2 g2 => rw [compile_of_dirty_fail _ h2 e2 g2 hdirty]; rfl

/-- C10 witness: concrete instance on the Clean unit `cleanUnit`: the next
compile after `GetInclude` performs one compiler invocation. -/
theorem getInclude_marks_configDirty_witness :
    cleanUnit.m_is_config_changed = false ∧
    CShader.GetInclude cleanUnit =
      (cleanUnit.m_p_include, { cleanUnit with m_is_config_changed := true }) ∧
    (CShader.Compile (CShader.GetInclude cleanUnit).2
        (CompileResult.ok 9)).2.2.length = 1 :=
  ⟨rfl, (getInclude_marks_configDirty cleanUnit).1,
   (getInclude_marks_configDirty cleanUnit).2 rfl (CompileResult.ok 9)⟩
